import Mathlib

/-
Verification of the Cosmos Sentinel impact-report engine.

The definitions below are a shallow embedding of the numeric core of the
repository, translated statement by statement from the JavaScript source:

* `generateReportData` in the scientific-report component
  (src/unnamed/part_003, lines 39-222): mass, kinetic energy, megaton
  conversion, seismic magnitude, crater diameter, fireball radius,
  shockwave intensity, peak winds, airburst classification, risk zones,
  affected population, costs and ROI.
* the input-defaulting prologue of the same function (lines 45-48), which
  reads each parameter with the JavaScript `||` operator, so that a
  missing field and the number 0 are both replaced by the default.
* `runSimulation` in src/frontend/src/components/AsteroidDashboard.js
  (lines 339-436) together with `CosmosSentinelAPI.request`
  (src/unnamed/part_001): the success mapping, the fallback data used
  when the backend call fails, and the follow-up effects (zones, alerts,
  map lock).

Numbers are modelled by real numbers; the JavaScript `Math.pow`/`**` on
nonnegative bases is real `rpow`, `Math.floor` is `Int.floor`.  Form and
JSON inputs, which are finite decimals, are modelled by rationals in the
defaulting layer and cast to reals at the physics boundary.
-/

namespace CosmosSentinel

/-- Target surface type; the source compares the string field
`target_type` against the literal `'oceano'` and defaults to `'solo'`. -/
inductive TargetType
| solo
| rocha
| oceano
deriving DecidableEq

noncomputable section

/-- part_003 line 51: `const mass = Math.PI * Math.pow(diameter / 2, 3) * 3000`. -/
def meteorMass (diameter : ℝ) : ℝ :=
  Real.pi * (diameter / 2) ^ (3 : ℕ) * 3000

/-- part_003 line 52: `const energyJoules = 0.5 * mass * Math.pow(velocity * 1000, 2)`. -/
def energyJoules (diameter velocity : ℝ) : ℝ :=
  0.5 * meteorMass diameter * (velocity * 1000) ^ (2 : ℕ)

/-- part_003 line 53: `const energyMegatons = energyJoules / (4.184e15)`. -/
def energyMegatons (diameter velocity : ℝ) : ℝ :=
  energyJoules diameter velocity / 4.184e15

/-- part_003 line 56: `const seismicMagnitude = Math.log10(energyMegatons) + 4.0`. -/
def seismicMagnitude (diameter velocity : ℝ) : ℝ :=
  Real.logb 10 (energyMegatons diameter velocity) + 4.0

/-- part_003 line 59:
`const craterDiameter = Math.pow(energyMegatons, 0.294) * (Math.sin(angle * Math.PI / 180) ** 0.5)`. -/
def craterDiameter (diameter velocity angle : ℝ) : ℝ :=
  energyMegatons diameter velocity ^ (0.294 : ℝ) *
    Real.sin (angle * Real.pi / 180) ^ (0.5 : ℝ)

/-- part_003 line 62: `const fireballRadius = Math.pow(energyMegatons, 0.4) * 0.5`. -/
def fireballRadius (diameter velocity : ℝ) : ℝ :=
  energyMegatons diameter velocity ^ (0.4 : ℝ) * 0.5

/-- part_003 line 65: `const shockwaveIntensity = 120 + Math.log10(energyMegatons) * 10`. -/
def shockwaveIntensity (diameter velocity : ℝ) : ℝ :=
  120 + Real.logb 10 (energyMegatons diameter velocity) * 10

/-- part_003 line 68: `const peakWinds = Math.pow(energyMegatons, 0.3) * 50`. -/
def peakWinds (diameter velocity : ℝ) : ℝ :=
  energyMegatons diameter velocity ^ (0.3 : ℝ) * 50

/-- part_003 line 71: `const isAirburst = diameter < 150 || velocity > 50`. -/
def reportIsAirburst (diameter velocity : ℝ) : Prop :=
  diameter < 150 ∨ velocity > 50

/-- AsteroidDashboard.js lines 394 and 418 (fallback branches):
`impact_type: simulationForm.diameter_m <= 150 ? 'AIRBURST' : 'IMPACTO DIRETO'`.
The velocity plays no role in this second classifier. -/
def fallbackIsAirburst (diameter : ℝ) : Prop :=
  diameter ≤ 150

/-- part_003 line 75: `const populationDensity = 200`. -/
def populationDensity : ℝ := 200

/-- part_003 line 76:
`const affectedPopulation = Math.PI * Math.pow(fireballRadius * 2, 2) * populationDensity`. -/
def affectedPopulation (diameter velocity : ℝ) : ℝ :=
  Real.pi * (fireballRadius diameter velocity * 2) ^ (2 : ℕ) * populationDensity

/-- part_003 line 79: `const evacuationCost = affectedPopulation * 500`. -/
def evacuationCost (diameter velocity : ℝ) : ℝ :=
  affectedPopulation diameter velocity * 500

/-- part_003 line 80: `const infrastructureCost = energyMegatons * 1000000000`. -/
def infrastructureCost (diameter velocity : ℝ) : ℝ :=
  energyMegatons diameter velocity * 1000000000

/-- One risk zone of the report: its radius in km and its affected
population (`Math.floor` results, and the literal `0` for the direct
zone, are integers). -/
structure Zone where
  radius : ℝ
  population : ℤ

/-- part_003 lines 118-130: the `zones.tsunami` object.  It is built for
every target type; the `'oceano'` branch uses `fireballRadius * 0.8` and
`affectedPopulation * 0.3`, every other target uses `fireballRadius * 0.5`
and `affectedPopulation * 0.1`. -/
def tsunamiZone (t : TargetType) (diameter velocity : ℝ) : Zone :=
  match t with
  | .oceano =>
      ⟨fireballRadius diameter velocity * 0.8,
        Int.floor (affectedPopulation diameter velocity * 0.3)⟩
  | _ =>
      ⟨fireballRadius diameter velocity * 0.5,
        Int.floor (affectedPopulation diameter velocity * 0.1)⟩

/-- The fields of the generated report object that the numeric claims
are about (part_003 lines 82-217). -/
structure ReportData where
  mass : ℝ
  energyJ : ℝ
  energyMT : ℝ
  seismic : ℝ
  crater : ℝ
  fireball : ℝ
  shockwave : ℝ
  winds : ℝ
  isAirburst : Prop
  affected : ℝ
  direct : Zone
  tsunami : Zone
  moderate : Zone
  shockZone : Zone
  seismicZone : Zone
  opEvacuation : ℝ
  opShelters : ℝ
  opHospitals : ℝ
  opMilitary : ℝ
  opTotal : ℝ
  avInfrastructure : ℝ
  avEconomy : ℝ
  roi : ℝ

/-- The numeric core of `generateReportData` (part_003 lines 50-217),
after the input defaulting of lines 45-48 has been applied.
Direct zone: radius `craterDiameter / 2`, population the literal `0`
(lines 112-117).  Moderate, shockwave and seismic zones: fixed multiples
of the fireball radius with floored multiples of `affectedPopulation`
(lines 131-148).  Costs: lines 188-203, with `roi: 4.2` a literal. -/
def generateReport (d v angle : ℝ) (t : TargetType) : ReportData where
  mass := meteorMass d
  energyJ := energyJoules d v
  energyMT := energyMegatons d v
  seismic := seismicMagnitude d v
  crater := craterDiameter d v angle
  fireball := fireballRadius d v
  shockwave := shockwaveIntensity d v
  winds := peakWinds d v
  isAirburst := reportIsAirburst d v
  affected := affectedPopulation d v
  direct := ⟨craterDiameter d v angle / 2, 0⟩
  tsunami := tsunamiZone t d v
  moderate := ⟨fireballRadius d v * 1.5, Int.floor (affectedPopulation d v * 0.6)⟩
  shockZone := ⟨fireballRadius d v * 5, Int.floor (affectedPopulation d v * 3)⟩
  seismicZone := ⟨fireballRadius d v * 10, Int.floor (affectedPopulation d v * 8)⟩
  opEvacuation := evacuationCost d v
  opShelters := evacuationCost d v * 0.8
  opHospitals := evacuationCost d v * 0.3
  opMilitary := evacuationCost d v * 0.4
  opTotal := evacuationCost d v * 2.5
  avInfrastructure := infrastructureCost d v
  avEconomy := infrastructureCost d v * 0.6
  roi := 4.2

end

/-- The raw simulation input as the report component receives it: each
field may be absent (`simulationData?.x` yields `undefined`). -/
structure SimulationInput where
  diameter_m : Option ℚ
  velocity_kms : Option ℚ
  impact_angle_deg : Option ℚ
  target_type : Option TargetType

/-- JavaScript `x || dflt` on a possibly missing number (part_003 lines
45-47): an absent field and the number 0 are both replaced by the
default; any other number, including a negative one, is kept. -/
def resolveNum (x : Option ℚ) (dflt : ℚ) : ℚ :=
  match x with
  | none => dflt
  | some v => if v = 0 then dflt else v

/-- part_003 line 48: `simulationData?.target_type || 'solo'`. -/
def resolveTarget (t : Option TargetType) : TargetType :=
  t.getD TargetType.solo

/-- `generateReportData` (part_003 lines 39-222): defaulting prologue
followed by the numeric core.  The function is total: it never rejects
an input. -/
noncomputable def generateReportData (s : SimulationInput) : ReportData :=
  generateReport ((resolveNum s.diameter_m 200 : ℚ) : ℝ)
    ((resolveNum s.velocity_kms 17 : ℚ) : ℝ)
    ((resolveNum s.impact_angle_deg 30 : ℚ) : ℝ)
    (resolveTarget s.target_type)

/-! ## Helper lemmas (shared; not claim theorems) -/

lemma energyMegatons_pos (d v : ℝ) (hd : 0 < d) (hv : 0 < v) :
    0 < energyMegatons d v := by
  unfold energyMegatons energyJoules meteorMass
  positivity

lemma fireballRadius_pos (d v : ℝ) (hd : 0 < d) (hv : 0 < v) :
    0 < fireballRadius d v := by
  have h := energyMegatons_pos d v hd hv
  have h2 := Real.rpow_pos_of_pos h (0.4 : ℝ)
  unfold fireballRadius
  linarith

lemma affectedPopulation_pos (d v : ℝ) (hd : 0 < d) (hv : 0 < v) :
    0 < affectedPopulation d v := by
  have hf := fireballRadius_pos d v hd hv
  unfold affectedPopulation populationDensity
  have h2 : (0:ℝ) < (fireballRadius d v * 2) ^ (2 : ℕ) := by positivity
  have := Real.pi_pos
  nlinarith

lemma sin_angle_pos (angle : ℝ) (h0 : 0 < angle) (h90 : angle ≤ 90) :
    0 < Real.sin (angle * Real.pi / 180) := by
  apply Real.sin_pos_of_pos_of_lt_pi
  · positivity
  · nlinarith [Real.pi_pos, mul_le_mul_of_nonneg_right h90 Real.pi_pos.le]

lemma craterDiameter_pos (d v angle : ℝ) (hd : 0 < d) (hv : 0 < v)
    (h0 : 0 < angle) (h90 : angle ≤ 90) :
    0 < craterDiameter d v angle := by
  have hE := energyMegatons_pos d v hd hv
  have hs := sin_angle_pos angle h0 h90
  unfold craterDiameter
  exact mul_pos (Real.rpow_pos_of_pos hE _) (Real.rpow_pos_of_pos hs _)

lemma one_le_energyMegatons_200_17 : 1 ≤ energyMegatons 200 17 := by
  unfold energyMegatons energyJoules meteorMass
  nlinarith [Real.pi_gt_three]

/-! ## Claim theorems -/

/-- C9: the energy in megatons TNT computed by the report generator is
strictly increasing in the diameter holding the velocity fixed, and
strictly increasing in the velocity holding the diameter fixed, for all
valid inputs (diameter and velocity positive). -/
theorem energyMegatons_strict_mono (d₁ d₂ v₁ v₂ : ℝ) (hd₁ : 0 < d₁) (hv₁ : 0 < v₁) :
    (d₁ < d₂ → energyMegatons d₁ v₁ < energyMegatons d₂ v₁) ∧
    (v₁ < v₂ → energyMegatons d₁ v₁ < energyMegatons d₁ v₂) := by
  constructor
  · intro h
    unfold energyMegatons energyJoules meteorMass
    gcongr
  · intro h
    unfold energyMegatons energyJoules meteorMass
    have hm : (0:ℝ) < Real.pi * (d₁ / 2) ^ (3 : ℕ) * 3000 := by positivity
    gcongr

/-- Witness for C9 at the concrete inputs 100 m < 150 m and 17 km/s < 20 km/s. -/
theorem energyMegatons_strict_mono_witness :
    (0:ℝ) < 100 ∧ (0:ℝ) < 17 ∧
    energyMegatons 100 17 < energyMegatons 150 17 ∧
    energyMegatons 100 17 < energyMegatons 100 20 :=
  ⟨by norm_num, by norm_num,
    (energyMegatons_strict_mono 100 150 17 20 (by norm_num) (by norm_num)).1 (by norm_num),
    (energyMegatons_strict_mono 100 150 17 20 (by norm_num) (by norm_num)).2 (by norm_num)⟩

/-- C2 counterexample: at diameter 2 m the code computes the mass
π·(2/2)³·3000 = 3000π kg, while the claim's formula (π/6)·2³·3000 gives
4000π kg; they differ. -/
theorem mass_formula_counterexample :
    meteorMass 2 ≠ Real.pi / 6 * 2 ^ (3:ℕ) * 3000 := by
  unfold meteorMass
  intro h
  ring_nf at h
  nlinarith [Real.pi_pos]

/-- C2 (amended): the mass is π·(diameter/2)³·3000 (the code omits the
4/3 factor of the sphere volume); the kinetic energy is
0.5·mass·(velocity·1000)² joules and the megaton value is that energy
divided by 4.184e15, so the composed energy is
π·(d/2)³·3000·(v·1000)²/(2·4.184e15). -/
theorem energy_pipeline_amended (d v : ℝ) :
    meteorMass d = Real.pi * (d / 2) ^ (3:ℕ) * 3000 ∧
    energyJoules d v = 0.5 * meteorMass d * (v * 1000) ^ (2:ℕ) ∧
    energyMegatons d v = energyJoules d v / 4.184e15 ∧
    energyMegatons d v =
      Real.pi * (d / 2) ^ (3:ℕ) * 3000 * (v * 1000) ^ (2:ℕ) / (2 * 4.184e15) := by
  refine ⟨rfl, rfl, rfl, ?_⟩
  unfold energyMegatons energyJoules meteorMass
  ring

/-- C3 counterexample: at diameter 150 m and velocity 17 km/s the report
classifier is false (neither 150 < 150 nor 17 > 50) while the dashboard
fallback classifier is true (150 ≤ 150), so the two policies differ. -/
theorem airburst_policy_counterexample :
    ¬ (reportIsAirburst 150 17 ↔ fallbackIsAirburst 150) := by
  unfold reportIsAirburst fallbackIsAirburst
  norm_num

/-- C3 (amended): the two airburst classifiers are distinct policies;
they agree exactly when d < 150, or d = 150 with v > 50, or d > 150 with
v ≤ 50. -/
theorem airburst_policies_agreement (d v : ℝ) :
    ((reportIsAirburst d v ↔ fallbackIsAirburst d) ↔
      (d < 150 ∨ (d = 150 ∧ 50 < v) ∨ (150 < d ∧ v ≤ 50))) := by
  unfold reportIsAirburst fallbackIsAirburst
  constructor
  · intro h
    rcases lt_trichotomy d 150 with h1 | h1 | h1
    · exact Or.inl h1
    · subst h1
      rcases h.mpr le_rfl with h2 | h2
      · linarith
      · exact Or.inr (Or.inl ⟨rfl, h2⟩)
    · refine Or.inr (Or.inr ⟨h1, ?_⟩)
      by_contra hv
      push_neg at hv
      have := h.mp (Or.inr hv)
      linarith
  · rintro (h | ⟨rfl, hv⟩ | ⟨hd, hv⟩)
    · exact ⟨fun _ => le_of_lt h, fun _ => Or.inl h⟩
    · exact ⟨fun _ => le_rfl, fun _ => Or.inr hv⟩
    · constructor
      · rintro (h2 | h2) <;> [linarith; linarith]
      · intro h2
        exact absurd h2 (not_le.mpr hd)

/-- C1 counterexample: the input (100 m, 17 km/s, 30°, soil) is
classified as airburst (100 < 150), yet the generated report's crater
diameter and direct-zone radius are both nonzero: the code computes the
crater power law for every input, never zeroing it on airburst. -/
theorem crater_zero_on_airburst_counterexample :
    reportIsAirburst 100 17 ∧
    (generateReport 100 17 30 .solo).crater ≠ 0 ∧
    (generateReport 100 17 30 .solo).direct.radius ≠ 0 := by
  have h := craterDiameter_pos 100 17 30 (by norm_num) (by norm_num)
    (by norm_num) (by norm_num)
  refine ⟨Or.inl (by norm_num), ne_of_gt h, ?_⟩
  show craterDiameter 100 17 30 / 2 ≠ 0
  positivity

/-- C1 (amended): the report generator computes the crater power law for
every input, airburst or not: for positive diameter and velocity and an
angle in (0, 90], the crater diameter is strictly positive — also when
the input is classified airburst — and the direct zone's radius is half
of it. -/
theorem crater_always_computed_amended (d v angle : ℝ) (t : TargetType)
    (hd : 0 < d) (hv : 0 < v) (h0 : 0 < angle) (h90 : angle ≤ 90) :
    0 < (generateReport d v angle t).crater ∧
    (generateReport d v angle t).direct.radius =
      (generateReport d v angle t).crater / 2 :=
  ⟨craterDiameter_pos d v angle hd hv h0 h90, rfl⟩

/-- Witness for amended C1 at the airburst input (50 m, 20 km/s, 45°, rock). -/
theorem crater_always_computed_amended_witness :
    ((0:ℝ) < 50 ∧ (0:ℝ) < 20 ∧ (0:ℝ) < 45 ∧ (45:ℝ) ≤ 90) ∧
    (0 < (generateReport 50 20 45 .rocha).crater ∧
      (generateReport 50 20 45 .rocha).direct.radius =
        (generateReport 50 20 45 .rocha).crater / 2) :=
  ⟨⟨by norm_num, by norm_num, by norm_num, by norm_num⟩,
    crater_always_computed_amended 50 20 45 .rocha (by norm_num) (by norm_num)
      (by norm_num) (by norm_num)⟩

/-- C5 counterexample: at (200 m, 17 km/s, 30°, soil) the direct zone's
population field is the literal 0 while π·radius²·200 for the direct
zone's radius is strictly positive, so the per-zone population is not
π·radius²·density. -/
theorem zone_population_counterexample :
    (generateReport 200 17 30 .solo).direct.population = 0 ∧
    Real.pi * (generateReport 200 17 30 .solo).direct.radius ^ (2:ℕ) * 200 ≠ 0 := by
  refine ⟨rfl, ?_⟩
  have h := craterDiameter_pos 200 17 30 (by norm_num) (by norm_num)
    (by norm_num) (by norm_num)
  show Real.pi * (craterDiameter 200 17 30 / 2) ^ (2:ℕ) * 200 ≠ 0
  positivity

/-- C5 (amended): every zone population is a floored fixed multiple of
the single base figure affectedPopulation = π·(2·fireball)²·200 — direct
0, moderate ⌊0.6·A⌋, shockwave ⌊3·A⌋, seismic ⌊8·A⌋, tsunami ⌊0.3·A⌋ for
ocean and ⌊0.1·A⌋ otherwise — computed from the fireball radius, not as
π·radius²·density per zone; each of these populations is
nonnegative. -/
theorem zone_population_amended (d v angle : ℝ) (t : TargetType) :
    (generateReport d v angle t).affected =
      Real.pi * (fireballRadius d v * 2) ^ (2:ℕ) * 200 ∧
    (generateReport d v angle t).direct.population = 0 ∧
    (generateReport d v angle t).moderate.population =
      Int.floor ((generateReport d v angle t).affected * 0.6) ∧
    (generateReport d v angle t).shockZone.population =
      Int.floor ((generateReport d v angle t).affected * 3) ∧
    (generateReport d v angle t).seismicZone.population =
      Int.floor ((generateReport d v angle t).affected * 8) ∧
    (generateReport d v angle t).tsunami.population =
      Int.floor ((generateReport d v angle t).affected *
        (if t = .oceano then 0.3 else 0.1)) ∧
    0 ≤ (generateReport d v angle t).moderate.population ∧
    0 ≤ (generateReport d v angle t).shockZone.population ∧
    0 ≤ (generateReport d v angle t).seismicZone.population ∧
    0 ≤ (generateReport d v angle t).tsunami.population := by
  have hA : 0 ≤ affectedPopulation d v := by
    unfold affectedPopulation populationDensity
    positivity
  have hfloor : ∀ c : ℝ, 0 ≤ c → (0:ℤ) ≤ Int.floor (affectedPopulation d v * c) :=
    fun c hc => Int.floor_nonneg.mpr (mul_nonneg hA hc)
  refine ⟨rfl, rfl, rfl, rfl, rfl, ?_, ?_, ?_, ?_, ?_⟩
  · cases t <;> simp [generateReport, tsunamiZone]
  · exact hfloor 0.6 (by norm_num)
  · exact hfloor 3 (by norm_num)
  · exact hfloor 8 (by norm_num)
  · cases t
    · exact hfloor 0.1 (by norm_num)
    · exact hfloor 0.1 (by norm_num)
    · exact hfloor 0.3 (by norm_num)

/-- C8 counterexample: at (200 m, 17 km/s, angle 0°, soil) the direct
zone's radius is 0 (the crater power law vanishes at grazing angle)
while 0.5 × fireball radius is strictly positive, so the direct radius
is not the fixed multiple 0.5 of the fireball radius. -/
theorem zone_radii_counterexample :
    (generateReport 200 17 0 .solo).direct.radius = 0 ∧
    0 < (generateReport 200 17 0 .solo).fireball * 0.5 ∧
    (generateReport 200 17 0 .solo).direct.radius ≠
      (generateReport 200 17 0 .solo).fireball * 0.5 := by
  have hf := fireballRadius_pos 200 17 (by norm_num) (by norm_num)
  have h05 : (0:ℝ) < fireballRadius 200 17 * 0.5 := by linarith
  have hc : craterDiameter 200 17 0 = 0 := by
    unfold craterDiameter
    have h1 : (0:ℝ) * Real.pi / 180 = 0 := by ring
    rw [h1, Real.sin_zero, Real.zero_rpow (by norm_num : (0.5:ℝ) ≠ 0), mul_zero]
  have hr : (generateReport 200 17 0 .solo).direct.radius = 0 := by
    show craterDiameter 200 17 0 / 2 = 0
    rw [hc]
    norm_num
  refine ⟨hr, h05, ?_⟩
  rw [hr]
  show (0:ℝ) ≠ fireballRadius 200 17 * 0.5
  exact ne_of_lt h05

/-- C8 (amended): the moderate, shockwave and seismic radii are the
fixed multiples 1.5, 5 and 10 of the fireball radius and are strictly
increasing whenever the fireball radius is positive; the tsunami radius
is the multiple 0.8 for ocean and 0.5 otherwise; but the direct zone's
radius is half the crater diameter, not a fixed multiple of the
fireball radius. -/
theorem zone_radii_amended (d v angle : ℝ) (t : TargetType)
    (hf : 0 < fireballRadius d v) :
    (generateReport d v angle t).direct.radius = craterDiameter d v angle / 2 ∧
    (generateReport d v angle t).moderate.radius = fireballRadius d v * 1.5 ∧
    (generateReport d v angle t).shockZone.radius = fireballRadius d v * 5 ∧
    (generateReport d v angle t).seismicZone.radius = fireballRadius d v * 10 ∧
    (generateReport d v angle t).tsunami.radius =
      fireballRadius d v * (if t = .oceano then 0.8 else 0.5) ∧
    (generateReport d v angle t).moderate.radius <
      (generateReport d v angle t).shockZone.radius ∧
    (generateReport d v angle t).shockZone.radius <
      (generateReport d v angle t).seismicZone.radius := by
  refine ⟨rfl, rfl, rfl, rfl, ?_, ?_, ?_⟩
  · cases t <;> simp [generateReport, tsunamiZone]
  · show fireballRadius d v * 1.5 < fireballRadius d v * 5
    nlinarith
  · show fireballRadius d v * 5 < fireballRadius d v * 10
    nlinarith

/-- Witness for amended C8 at (200 m, 17 km/s, 30°, ocean). -/
theorem zone_radii_amended_witness :
    0 < fireballRadius 200 17 ∧
    ((generateReport 200 17 30 .oceano).direct.radius = craterDiameter 200 17 30 / 2 ∧
      (generateReport 200 17 30 .oceano).moderate.radius = fireballRadius 200 17 * 1.5 ∧
      (generateReport 200 17 30 .oceano).shockZone.radius = fireballRadius 200 17 * 5 ∧
      (generateReport 200 17 30 .oceano).seismicZone.radius = fireballRadius 200 17 * 10 ∧
      (generateReport 200 17 30 .oceano).tsunami.radius =
        fireballRadius 200 17 * (if TargetType.oceano = TargetType.oceano then 0.8 else 0.5) ∧
      (generateReport 200 17 30 .oceano).moderate.radius <
        (generateReport 200 17 30 .oceano).shockZone.radius ∧
      (generateReport 200 17 30 .oceano).shockZone.radius <
        (generateReport 200 17 30 .oceano).seismicZone.radius) :=
  ⟨fireballRadius_pos 200 17 (by norm_num) (by norm_num),
    zone_radii_amended 200 17 30 .oceano
      (fireballRadius_pos 200 17 (by norm_num) (by norm_num))⟩

lemma one_le_rpow_energy_200_17 (p : ℝ) (hp : 0 ≤ p) :
    1 ≤ energyMegatons 200 17 ^ p := by
  calc (1:ℝ) = (1:ℝ) ^ p := (Real.one_rpow p).symm
  _ ≤ energyMegatons 200 17 ^ p :=
      Real.rpow_le_rpow (by norm_num) one_le_energyMegatons_200_17 hp

lemma ten_le_affectedPopulation_200_17 : 10 ≤ affectedPopulation 200 17 := by
  have hpow := one_le_rpow_energy_200_17 0.4 (by norm_num)
  have hx2 : (1:ℝ) ≤ (energyMegatons 200 17 ^ (0.4:ℝ)) ^ (2:ℕ) := by
    nlinarith [hpow]
  have h4 : (3:ℝ) * 1 ≤ Real.pi * (energyMegatons 200 17 ^ (0.4:ℝ)) ^ (2:ℕ) :=
    mul_le_mul Real.pi_gt_three.le hx2 (by norm_num) Real.pi_pos.le
  unfold affectedPopulation populationDensity fireballRadius
  have h2 : energyMegatons 200 17 ^ (0.4:ℝ) * 0.5 * 2 =
      energyMegatons 200 17 ^ (0.4:ℝ) := by ring
  rw [h2]
  linarith

/-- C4 (the code evaluated at the failing input): for the land input
(200 m, 17 km/s, 30°, soil) — identical to an ocean run except for the
target type — the generated report still contains a tsunami zone, with
radius 0.5 × fireball > 0 and population at least 1, contradicting the
claim (and the repository's own documentation, which says the tsunami
zone applies only to oceanic impact). -/
theorem tsunami_always_present_eval :
    (generateReport 200 17 30 .solo).tsunami.radius = fireballRadius 200 17 * 0.5 ∧
    0 < (generateReport 200 17 30 .solo).tsunami.radius ∧
    1 ≤ (generateReport 200 17 30 .solo).tsunami.population ∧
    (generateReport 200 17 30 .oceano).tsunami.radius = fireballRadius 200 17 * 0.8 := by
  have hf := fireballRadius_pos 200 17 (by norm_num) (by norm_num)
  refine ⟨rfl, ?_, ?_, rfl⟩
  · show (0:ℝ) < fireballRadius 200 17 * 0.5
    linarith
  · show (1:ℤ) ≤ Int.floor (affectedPopulation 200 17 * 0.1)
    rw [Int.le_floor]
    push_cast
    linarith [ten_le_affectedPopulation_200_17]

/-- C6 counterexample: at (200 m, 17 km/s, 30°, soil) the operational
total is nonzero, yet the report's roi field (the literal 4.2) is not
the avoided-damage total (infrastructure + economy) divided by the
operational total — that ratio exceeds 4.2. -/
theorem roi_counterexample :
    (generateReport 200 17 30 .solo).opTotal ≠ 0 ∧
    (generateReport 200 17 30 .solo).roi ≠
      ((generateReport 200 17 30 .solo).avInfrastructure +
        (generateReport 200 17 30 .solo).avEconomy) /
        (generateReport 200 17 30 .solo).opTotal := by
  have hA10 := ten_le_affectedPopulation_200_17
  have hop : (0:ℝ) < evacuationCost 200 17 * 2.5 := by
    unfold evacuationCost
    nlinarith
  constructor
  · show evacuationCost 200 17 * 2.5 ≠ 0
    exact ne_of_gt hop
  · show (4.2:ℝ) ≠ (infrastructureCost 200 17 + infrastructureCost 200 17 * 0.6) /
      (evacuationCost 200 17 * 2.5)
    have hE0 : 0 < energyMegatons 200 17 :=
      energyMegatons_pos 200 17 (by norm_num) (by norm_num)
    have hE02 : (1:ℝ) ≤ energyMegatons 200 17 ^ (0.2:ℝ) :=
      one_le_rpow_energy_200_17 0.2 (by norm_num)
    have hx0 : (0:ℝ) < energyMegatons 200 17 ^ (0.4:ℝ) :=
      Real.rpow_pos_of_pos hE0 _
    have hsplit : energyMegatons 200 17 ^ (0.4:ℝ) * energyMegatons 200 17 ^ (0.4:ℝ) *
        energyMegatons 200 17 ^ (0.2:ℝ) = energyMegatons 200 17 := by
      rw [← Real.rpow_add hE0, ← Real.rpow_add hE0]
      norm_num
    have hxxE : energyMegatons 200 17 ^ (0.4:ℝ) * energyMegatons 200 17 ^ (0.4:ℝ) ≤
        energyMegatons 200 17 := by
      nlinarith [hsplit, hE02, mul_pos hx0 hx0]
    have hpi2 : Real.pi * (energyMegatons 200 17 ^ (0.4:ℝ) *
        energyMegatons 200 17 ^ (0.4:ℝ)) <
        3.15 * (energyMegatons 200 17 ^ (0.4:ℝ) * energyMegatons 200 17 ^ (0.4:ℝ)) :=
      mul_lt_mul_of_pos_right Real.pi_lt_d2 (mul_pos hx0 hx0)
    have hratio : (4.2:ℝ) <
        (infrastructureCost 200 17 + infrastructureCost 200 17 * 0.6) /
          (evacuationCost 200 17 * 2.5) := by
      rw [lt_div_iff₀ hop]
      unfold infrastructureCost evacuationCost affectedPopulation populationDensity
        fireballRadius
      nlinarith [hpi2, hxxE, hE0, mul_pos hx0 hx0]
    exact ne_of_lt hratio

/-- C6 (amended): the ROI field of the cost estimate is the hard-coded
constant 4.2, independent of every input; it is neither a computed
ratio nor a null guard. -/
theorem roi_constant_amended (d v angle : ℝ) (t : TargetType)
    (d' v' angle' : ℝ) (t' : TargetType) :
    (generateReport d v angle t).roi = 4.2 ∧
    (generateReport d v angle t).roi = (generateReport d' v' angle' t').roi :=
  ⟨rfl, rfl⟩

/-- C7 counterexample: the input with diameter_m = 0 is not rejected:
the generator silently substitutes the default 200 m, returning exactly
the report of the 200 m input, with nonzero mass — there is no
InvalidParameter rejection. -/
theorem invalid_diameter_counterexample :
    generateReportData ⟨some 0, some 17, some 30, some .solo⟩ =
      generateReportData ⟨some 200, some 17, some 30, some .solo⟩ ∧
    (generateReportData ⟨some 0, some 17, some 30, some .solo⟩).mass ≠ 0 := by
  have h0 : resolveNum (some 0) 200 = 200 := by simp [resolveNum]
  have h200 : resolveNum (some 200) 200 = 200 := by norm_num [resolveNum]
  constructor
  · unfold generateReportData
    rw [h0, h200]
  · show meteorMass ((resolveNum (some 0) 200 : ℚ) : ℝ) ≠ 0
    rw [h0]
    have : ((200:ℚ):ℝ) = 200 := by norm_num
    rw [this]
    unfold meteorMass
    positivity

/-- C7 (amended): report generation never rejects an input: a missing
diameter and diameter 0 are both silently replaced by the default 200
(velocity default 17, angle default 30, target default soil), any
nonzero value — including a negative one — is kept as given, and the
full report of the resolved values is always produced. -/
theorem defaulting_amended (s : SimulationInput) :
    generateReportData s =
      generateReport ((resolveNum s.diameter_m 200 : ℚ) : ℝ)
        ((resolveNum s.velocity_kms 17 : ℚ) : ℝ)
        ((resolveNum s.impact_angle_deg 30 : ℚ) : ℝ)
        (resolveTarget s.target_type) ∧
    resolveNum none 200 = 200 ∧
    resolveNum (some 0) 200 = 200 ∧
    (∀ q : ℚ, q ≠ 0 → resolveNum (some q) 200 = q) := by
  refine ⟨rfl, rfl, by simp [resolveNum], ?_⟩
  intro q hq
  simp [resolveNum, hq]

/-- Witness for amended C7: a concrete input with a negative diameter
and missing velocity and target fields. -/
theorem defaulting_amended_witness :
    (generateReportData ⟨some (-5), none, some 30, none⟩ =
      generateReport ((resolveNum (some (-5)) 200 : ℚ) : ℝ)
        ((resolveNum none 17 : ℚ) : ℝ)
        ((resolveNum (some 30) 30 : ℚ) : ℝ)
        (resolveTarget none)) ∧
    ((-5 : ℚ) ≠ 0) ∧
    resolveNum (some (-5)) 200 = -5 :=
  ⟨(defaulting_amended ⟨some (-5), none, some 30, none⟩).1,
    by norm_num,
    (defaulting_amended ⟨some (-5), none, some 30, none⟩).2.2.2 (-5) (by norm_num)⟩

/-! ## The dashboard simulation flow (C10) -/

/-- The slice of the dashboard's simulation form that the fallback data
reads (AsteroidDashboard.js lines 386-396). -/
structure SimulationForm where
  diameter_m : ℚ
  velocity_kms : ℚ

/-- The backend response fields that the success branch maps
(AsteroidDashboard.js lines 364-374); each is behind optional chaining
with a `|| 0` default, and `is_airburst` drives the impact type. -/
structure BackendData where
  energia_tnt_megatons : Option ℚ
  magnitude_richter : Option ℚ
  diametro_final_km : Option ℚ
  raio_queimadura_km : Option ℚ
  nivel_som_db : Option ℚ
  pico_vento_ms : Option ℚ
  is_airburst : Bool

/-- The result object returned by `CosmosSentinelAPI.request`
(src/unnamed/part_001 lines 26-54): `{success: true, data}` when the
fetch succeeds, `{success: false, error, data: null}` on any error or
timeout — the request method never throws to its caller. -/
structure ApiResult where
  success : Bool
  data : Option BackendData

/-- The `mappedData`/`fallbackData` object stored in the dashboard state
(AsteroidDashboard.js lines 365-374 and 387-396); `airburst` models the
`impact_type` string being the literal `'AIRBURST'`. -/
structure MappedData where
  impact_energy_mt : ℝ
  seismic_magnitude : ℝ
  crater_diameter_km : ℝ
  fireball_radius_km : ℝ
  shockwave_intensity_db : ℝ
  peak_winds_kmh : ℝ
  airburst : Bool

noncomputable section

/-- The success-branch mapping of the backend response
(AsteroidDashboard.js lines 365-374). -/
def mapSuccess (b : BackendData) : MappedData where
  impact_energy_mt := ((b.energia_tnt_megatons.getD 0 : ℚ) : ℝ)
  seismic_magnitude := ((b.magnitude_richter.getD 0 : ℚ) : ℝ)
  crater_diameter_km := ((b.diametro_final_km.getD 0 : ℚ) : ℝ)
  fireball_radius_km := ((b.raio_queimadura_km.getD 0 : ℚ) : ℝ)
  shockwave_intensity_db := ((b.nivel_som_db.getD 0 : ℚ) : ℝ)
  peak_winds_kmh := ((b.pico_vento_ms.getD 0 : ℚ) : ℝ) * 3.6
  airburst := b.is_airburst

/-- The fallback data built in the error branch and in the catch block
(AsteroidDashboard.js lines 387-396 and 410-420; the two blocks are
textually identical). -/
def fallbackData (f : SimulationForm) : MappedData where
  impact_energy_mt := (f.diameter_m : ℝ) * 0.1
  seismic_magnitude := Real.logb 10 (f.diameter_m : ℝ) + 2
  crater_diameter_km := (f.diameter_m : ℝ) / 1000
  fireball_radius_km := (f.diameter_m : ℝ) / 500
  shockwave_intensity_db := 120 + (f.velocity_kms : ℝ) * 2
  peak_winds_kmh := (f.velocity_kms : ℝ) * 10
  airburst := decide (f.diameter_m ≤ 150)

/-- The externally visible outcome of one `runSimulation` call: the
stored simulation data and the follow-up effects (zones and routes
generated, alerts generated, map locked, an error surfaced to the
caller). -/
structure RunOutcome where
  simData : MappedData
  zonesGenerated : Bool
  alertsGenerated : Bool
  mapLocked : Bool
  errorSurfaced : Bool

/-- `runSimulation` (AsteroidDashboard.js lines 339-436): on
`result.success && result.data` the mapped backend data is stored;
otherwise — error response or exception, both branches building the
same object — the fallback data is stored. Every branch then calls
`generateZonesAndRoutes`, `generateAlerts` and `setIsMapLocked(true)`,
and no branch rethrows. -/
def runSimulation (f : SimulationForm) (r : ApiResult) : RunOutcome :=
  match r.success, r.data with
  | true, some b => ⟨mapSuccess b, true, true, true, false⟩
  | _, _ => ⟨fallbackData f, true, true, true, false⟩

end

/-- C10: whenever the backend call fails or returns unsuccessfully, the
dashboard surfaces no error; it stores the fallback result computed by
the alternative formula set (energy = diameter·0.1, seismic magnitude =
log10(diameter) + 2, crater = diameter/1000, fireball = diameter/500,
airburst iff diameter ≤ 150, independent of velocity), generates zones
and alerts from it and locks the map exactly as on a successful run. -/
theorem fallback_on_failure (f : SimulationForm) (r : ApiResult)
    (hfail : r.success = false ∨ r.data = none) :
    runSimulation f r = ⟨fallbackData f, true, true, true, false⟩ ∧
    (runSimulation f r).errorSurfaced = false ∧
    (runSimulation f r).simData.impact_energy_mt = (f.diameter_m : ℝ) * 0.1 ∧
    (runSimulation f r).simData.seismic_magnitude =
      Real.logb 10 (f.diameter_m : ℝ) + 2 ∧
    (runSimulation f r).simData.crater_diameter_km = (f.diameter_m : ℝ) / 1000 ∧
    (runSimulation f r).simData.fireball_radius_km = (f.diameter_m : ℝ) / 500 ∧
    ((runSimulation f r).simData.airburst = true ↔ f.diameter_m ≤ 150) ∧
    (∀ b : BackendData,
      (runSimulation f r).zonesGenerated =
        (runSimulation f ⟨true, some b⟩).zonesGenerated ∧
      (runSimulation f r).alertsGenerated =
        (runSimulation f ⟨true, some b⟩).alertsGenerated ∧
      (runSimulation f r).mapLocked = (runSimulation f ⟨true, some b⟩).mapLocked ∧
      (runSimulation f r).errorSurfaced =
        (runSimulation f ⟨true, some b⟩).errorSurfaced) := by
  obtain ⟨s, d⟩ := r
  have hr : runSimulation f ⟨s, d⟩ = ⟨fallbackData f, true, true, true, false⟩ := by
    rcases hfail with h | h
    · simp only at h
      subst h
      cases d <;> rfl
    · simp only at h
      subst h
      cases s <;> rfl
  refine ⟨hr, ?_, ?_, ?_, ?_, ?_, ?_, ?_⟩ <;> rw [hr]
  · rfl
  · rfl
  · rfl
  · rfl
  · show (decide (f.diameter_m ≤ 150) = true) ↔ f.diameter_m ≤ 150
    exact decide_eq_true_iff
  · intro b
    exact ⟨rfl, rfl, rfl, rfl⟩

/-- Witness for C10: a failed backend result for the 100 m, 20 km/s
form. -/
theorem fallback_on_failure_witness :
    ((⟨false, none⟩ : ApiResult).success = false ∨
      (⟨false, none⟩ : ApiResult).data = none) ∧
    runSimulation ⟨100, 20⟩ ⟨false, none⟩ =
      ⟨fallbackData ⟨100, 20⟩, true, true, true, false⟩ ∧
    (runSimulation ⟨100, 20⟩ ⟨false, none⟩).simData.airburst = true :=
  ⟨Or.inl rfl,
    (fallback_on_failure ⟨100, 20⟩ ⟨false, none⟩ (Or.inl rfl)).1,
    by decide⟩

end CosmosSentinel
